import Mathlib

/-!
Verification of `rmf_robot_sim_common/include/rmf_robot_sim_common/utils.hpp`
(namespace `rmf_plugins_utils`).

Doubles are embedded as exact rationals (`ℚ`): every `ℚ` value is finite, so
the "all fields finite" side conditions of the C++ interface hold by typing.
`uint64_t` and `uint8_t` values are embedded as `Nat` with explicit range
hypotheses where the claim quantifies over the machine type.
-/

namespace rmf_plugins_utils

/-- The `Simulator` enum of utils.hpp: `enum Simulator {Ignition, Gazebo}`. -/
inductive Simulator where
  | Ignition : Simulator
  | Gazebo : Simulator
deriving DecidableEq, Repr

/-- The `SimEntity` struct of utils.hpp: a tag `sim_type` plus both payload
fields (`uint64_t entity` for Ignition, `std::string name` for Gazebo classic). -/
structure SimEntity where
  sim_type : Simulator
  entity : Nat
  name : String
deriving DecidableEq, Repr

/-- The constructor `SimEntity(uint64_t en) : sim_type(Ignition), entity(en) { name = ""; }`. -/
def SimEntity.ofEntity (en : Nat) : SimEntity :=
  { sim_type := Simulator.Ignition, entity := en, name := "" }

/-- The constructor `SimEntity(std::string nm) : sim_type(Gazebo), name(nm) { entity = 0; }`. -/
def SimEntity.ofName (nm : String) : SimEntity :=
  { sim_type := Simulator.Gazebo, entity := 0, name := nm }

/-- `SimEntity::get_name`: returns the `name` field unconditionally
(the stderr diagnostic is modelled separately by `get_name_warns`). -/
def SimEntity.get_name (e : SimEntity) : String :=
  e.name

/-- `SimEntity::get_name` writes "SimEntity Ignition object does not hold a name."
to stderr exactly when `sim_type != Gazebo`; this flag records that side channel. -/
def SimEntity.get_name_warns (e : SimEntity) : Bool :=
  e.sim_type ≠ Simulator.Gazebo

/-- `SimEntity::get_entity`: returns the `entity` field unconditionally
(the stderr diagnostic is modelled separately by `get_entity_warns`). -/
def SimEntity.get_entity (e : SimEntity) : Nat :=
  e.entity

/-- `SimEntity::get_entity` writes "SimEntity Gazebo object does not hold a uint64_t entity."
to stderr exactly when `sim_type != Ignition`; this flag records that side channel. -/
def SimEntity.get_entity_warns (e : SimEntity) : Bool :=
  e.sim_type ≠ Simulator.Ignition

/-- The `MotionParams` struct of utils.hpp with its default member values
`{v_max = 0.2, a_max = 0.1, a_nom = 0.08, dx_min = 0.01}`. -/
structure MotionParams where
  v_max : ℚ := 1/5
  a_max : ℚ := 1/10
  a_nom : ℚ := 2/25
  dx_min : ℚ := 1/100
deriving DecidableEq, Repr

/-- Construction of a `MotionParams` value: the C++ struct is a plain aggregate,
so construction stores the four given values verbatim, with no validation. -/
def mkMotionParams (v a an dx : ℚ) : MotionParams :=
  { v_max := v, a_max := a, a_nom := an, dx_min := dx }

/-- The MotionParams invariant stated by the spec:
`v_max>0, a_max>0, a_nom>0, dx_min≥0`, `a_nom ≤ a_max` (finiteness is free in `ℚ`). -/
def MotionParams.Valid (p : MotionParams) : Prop :=
  0 < p.v_max ∧ 0 < p.a_max ∧ 0 < p.a_nom ∧ p.a_nom ≤ p.a_max ∧ 0 ≤ p.dx_min

instance (p : MotionParams) : Decidable p.Valid := by
  unfold MotionParams.Valid
  infer_instance

/-- Sign with zero: `dir = sign(s_target)` (0 if `s_target == 0`), spec §4.1 step 1. -/
def sign (s : ℚ) : ℚ :=
  if 0 < s then 1 else if s < 0 then -1 else 0

/-- Clip `v` to the symmetric interval `[-m, m]` (spec §4.1 step 5:
"the resulting magnitude is clipped to `v_max`"). -/
def clampMag (v m : ℚ) : ℚ :=
  max (-m) (min m v)

/-- Move `v` toward `t` by at most `d`, reaching `t` exactly when it is within `d`
(spec §4.1 steps 2 and 5: "move `v_actual` toward ... by at most `a·dt`",
"the velocity update is clipped so the magnitude of the change does not exceed
`a_selected · dt`"; the exact-reach case realizes the snap-to-target clause). -/
def moveToward (v t d : ℚ) : ℚ :=
  if |t - v| ≤ d then t else if v < t then v + d else v - d

/-- Modelled from the spec (§4.1 step 3): the distance needed to decelerate from
`|v_actual|` to `speed_target_dest` at `a_max`, namely
`(v_actual² − speed_target_dest²)/(2·a_max)` when `v_actual` and `dir` agree in
sign and `|v_actual| > speed_target_dest`, otherwise 0. -/
def brakingDistance (v_actual speed_target_dest dir a_max : ℚ) : ℚ :=
  if 0 < v_actual * dir ∧ speed_target_dest < |v_actual| then
    (v_actual * v_actual - speed_target_dest * speed_target_dest) / (2 * a_max)
  else 0

/-- Modelled from the spec: the body of `compute_desired_rate_of_change` is not
under src/ (utils.hpp holds only its declaration), so this follows the algorithm
of spec §4.1 literally:
1. `dir = sign(s_target)`, `dist = |s_target|`;
2. deadband: if `dist < dx_min`, move `v_actual` toward `dir·speed_target_dest`
   by at most `a_max·dt` and return;
3. braking distance `d_brake` as in `brakingDistance`;
4. if `dist ≤ d_brake`, move toward `dir·speed_target_dest` at `a_max`,
   else move toward `dir·speed_target_now` at `a_nom`;
5. in those two branches the result's magnitude is clipped to `v_max`. -/
def compute_desired_rate_of_change (s_target v_actual speed_target_now
    speed_target_dest : ℚ) (p : MotionParams) (dt : ℚ) : ℚ :=
  if |s_target| < p.dx_min then
    moveToward v_actual (sign s_target * speed_target_dest) (p.a_max * dt)
  else if |s_target| ≤ brakingDistance v_actual speed_target_dest (sign s_target) p.a_max then
    clampMag (moveToward v_actual (sign s_target * speed_target_dest) (p.a_max * dt)) p.v_max
  else
    clampMag (moveToward v_actual (sign s_target * speed_target_now) (p.a_nom * dt)) p.v_max

/-- Modelled from the spec: `simulation_now` is declared in utils.hpp but its body
is not under src/; per the spec it produces "a simulation-domain timestamp" for the
given simulated time, modelled as the time value tagged into the timestamp type. -/
structure SimClockTime where
  stamp : ℚ
deriving DecidableEq, Repr

/-- Modelled from the spec: the simulation-domain timestamp for simulated time `t`. -/
def simulation_now (t : ℚ) : SimClockTime :=
  { stamp := t }

/-- The message shape filled in by `make_response` (the C++ is generic in
`ResultMsgT`; the four fields it writes are the ones modelled here).
`status` is a `uint8_t` embedded as `Nat`. -/
structure ResultMsg where
  time : SimClockTime
  request_guid : String
  source_guid : String
  status : Nat
deriving DecidableEq, Repr

/-- `make_response` of utils.hpp: default-constructs a message and sets
`time = simulation_now(sim_time)`, `request_guid`, `source_guid`, `status`. -/
def make_response (status : Nat) (sim_time : ℚ) (request_guid guid : String) :
    ResultMsg :=
  { time := simulation_now sim_time
    request_guid := request_guid
    source_guid := guid
    status := status }

/-- `Eigen::Vector3d` (components `[0], [1], [2]`). -/
structure Vec3 where
  x : ℚ
  y : ℚ
  z : ℚ
deriving DecidableEq, Repr

/-- `Eigen::Quaterniond` (components `w, x, y, z`). -/
structure Quat where
  w : ℚ
  x : ℚ
  y : ℚ
  z : ℚ
deriving DecidableEq, Repr

/-- A backend (Ignition Math) vector type exposing `.X()/.Y()/.Z()` accessors. -/
structure IgnVec3 where
  x : ℚ
  y : ℚ
  z : ℚ
deriving DecidableEq, Repr

/-- A backend (Ignition Math) quaternion type exposing `.W()/.X()/.Y()/.Z()`. -/
structure IgnQuat where
  w : ℚ
  x : ℚ
  y : ℚ
  z : ℚ
deriving DecidableEq, Repr

/-- A backend (Ignition Math) pose: position plus rotation quaternion,
exposing `.Pos()` and `.Rot()`. -/
structure IgnPose where
  pos : IgnVec3
  rot : IgnQuat
deriving DecidableEq, Repr

/-- The squared norm of a quaternion; the conversion contract assumes the
caller passes a normalized quaternion (`normSq = 1`). -/
def Quat.normSq (q : Quat) : ℚ :=
  q.w * q.w + q.x * q.x + q.y * q.y + q.z * q.z

/-- `Eigen::Isometry3d` restricted to rigid transforms: a translation and a
rotation. The 3×3 linear block is identified by its unit-quaternion
representative: Eigen's matrix/quaternion interconversion
(`Eigen::Quaterniond(Matrix3d)` / `Eigen::Matrix3d(Quaterniond)`) is external
library code, not part of this repository, and on normalized quaternions it is
an exact bijection between unit quaternions (up to sign) and rotation matrices,
so it is modelled as the identity on the representative. -/
structure Isometry3d where
  translation : Vec3
  rot : Quat
deriving DecidableEq, Repr

/-- The C++ overload `convert(const Eigen::Quaterniond&, IgnQuatT&)`:
copies `w, x, y, z` into the backend accessors `W(), X(), Y(), Z()`. -/
def convert_ign_quat (q : Quat) : IgnQuat :=
  { w := q.w, x := q.x, y := q.y, z := q.z }

/-- The C++ overload `convert(const Eigen::Vector3d&, IgnVec3T&)`:
copies components 0, 1, 2 into `X(), Y(), Z()`. -/
def convert_ign_vec (v : Vec3) : IgnVec3 :=
  { x := v.x, y := v.y, z := v.z }

/-- `convert_vec`: builds an `Eigen::Vector3d` from `_v[0], _v[1], _v[2]`. -/
def convert_vec (v : IgnVec3) : Vec3 :=
  { x := v.x, y := v.y, z := v.z }

/-- `convert_quat`: builds an `Eigen::Quaterniond` from `_q.W(), _q.X(), _q.Y(), _q.Z()`. -/
def convert_quat (q : IgnQuat) : Quat :=
  { w := q.w, x := q.x, y := q.y, z := q.z }

/-- `convert_to_pose`: converts the translation and the rotation
(its quaternion representative, see `Isometry3d`) into a backend pose. -/
def convert_to_pose (tf : Isometry3d) : IgnPose :=
  { pos := convert_ign_vec tf.translation
    rot := convert_ign_quat tf.rot }

/-- `convert_pose`: rebuilds an `Eigen::Isometry3d` from a backend pose via
`convert_vec` and `convert_quat`. -/
def convert_pose (pose : IgnPose) : Isometry3d :=
  { translation := convert_vec pose.pos
    rot := convert_quat pose.rot }

/-! Basic bounds for the controller's building blocks. -/

lemma abs_sign_le (s : ℚ) : |sign s| ≤ 1 := by
  unfold sign
  split_ifs <;> norm_num

lemma abs_clampMag_le (v : ℚ) {m : ℚ} (hm : 0 ≤ m) : |clampMag v m| ≤ m := by
  unfold clampMag
  rw [abs_le]
  constructor
  · exact le_max_left _ _
  · exact max_le (by linarith) (min_le_left _ _)

lemma abs_clampMag_le_abs (v : ℚ) {m : ℚ} (hm : 0 ≤ m) : |clampMag v m| ≤ |v| := by
  unfold clampMag
  rw [abs_le]
  constructor
  · exact le_trans (le_min (by linarith [abs_nonneg v]) (neg_abs_le v)) (le_max_right _ _)
  · exact max_le (le_trans (by linarith) (abs_nonneg v)) (le_trans (min_le_right _ _) (le_abs_self v))

lemma clampMag_sub_abs_le (u : ℚ) {v m : ℚ} (hv : |v| ≤ m) :
    |clampMag u m - v| ≤ |u - v| := by
  rcases abs_le.mp hv with ⟨hv1, hv2⟩
  unfold clampMag
  rcases le_total m u with h | h
  · rw [min_eq_left h, max_eq_right (by linarith : -m ≤ m)]
    rw [abs_of_nonneg (by linarith : (0:ℚ) ≤ m - v), abs_of_nonneg (by linarith : (0:ℚ) ≤ u - v)]
    linarith
  · rcases le_total u (-m) with h2 | h2
    · rw [min_eq_right (by linarith : u ≤ m), max_eq_left h2]
      rw [abs_of_nonpos (by linarith : -m - v ≤ 0), abs_of_nonpos (by linarith : u - v ≤ 0)]
      linarith
    · rw [min_eq_right h, max_eq_right h2]

lemma moveToward_sub_abs_le (v t : ℚ) {d : ℚ} (hd : 0 ≤ d) :
    |moveToward v t d - v| ≤ d := by
  unfold moveToward
  split_ifs with h1 h2
  · exact h1
  · have he : v + d - v = d := by ring
    rw [he, abs_of_nonneg hd]
  · have he : v - d - v = -d := by ring
    rw [he, abs_neg, abs_of_nonneg hd]

lemma moveToward_mem (v t : ℚ) {d : ℚ} (hd : 0 ≤ d) :
    min v t ≤ moveToward v t d ∧ moveToward v t d ≤ max v t := by
  unfold moveToward
  split_ifs with h1 h2
  · exact ⟨min_le_right _ _, le_max_right _ _⟩
  · have habs : |t - v| = t - v := abs_of_pos (by linarith)
    rw [habs] at h1
    constructor
    · exact le_trans (min_le_left _ _) (by linarith)
    · refine le_trans ?_ (le_max_right _ _)
      linarith [not_le.mp h1]
  · have hvt : t ≤ v := le_of_not_lt h2
    have hne : t < v := by
      rcases lt_or_eq_of_le hvt with h | h
      · exact h
      · exfalso
        apply h1
        rw [h, sub_self, abs_zero]
        exact hd
    have habs : |t - v| = v - t := by
      rw [abs_of_neg (by linarith : t - v < 0)]
      ring
    rw [habs] at h1
    constructor
    · refine le_trans (min_le_right _ _) ?_
      linarith [not_le.mp h1]
    · exact le_trans (by linarith) (le_max_left _ _)

lemma abs_moveToward_le {v t M : ℚ} {d : ℚ} (hd : 0 ≤ d) (hv : |v| ≤ M) (ht : |t| ≤ M) :
    |moveToward v t d| ≤ M := by
  obtain ⟨hlo, hhi⟩ := moveToward_mem v t hd
  rcases abs_le.mp hv with ⟨hv1, hv2⟩
  rcases abs_le.mp ht with ⟨ht1, ht2⟩
  rw [abs_le]
  constructor
  · exact le_trans (le_min hv1 ht1) hlo
  · exact le_trans hhi (max_le hv2 ht2)

lemma abs_moveToward_zero (v d : ℚ) :
    |moveToward v 0 d| ≤ max (|v| - d) 0 := by
  unfold moveToward
  split_ifs with h1 h2
  · simp
  · have hlt : d < -v := by
      have h := not_le.mp h1
      rwa [zero_sub, abs_neg, abs_of_neg h2] at h
    rw [abs_of_neg (by linarith : v + d < 0), abs_of_neg h2]
    refine le_trans (le_of_eq (by ring)) (le_max_left _ _)
  · have hv0 : 0 ≤ v := le_of_not_lt h2
    have hlt : d < v := by
      have h := not_le.mp h1
      rwa [zero_sub, abs_neg, abs_of_nonneg hv0] at h
    rw [abs_of_pos (by linarith : 0 < v - d), abs_of_nonneg hv0]
    exact le_max_left _ _

/-- At `s_target = 0` and `speed_target_dest = 0` every branch of the controller
moves the velocity toward 0, shrinking its magnitude by `a_max·dt` (down to 0). -/
lemma compute_zero_contract (stn : ℚ) (p : MotionParams) (dt : ℚ)
    (hp : p.Valid) (hdt : 0 < dt) (v : ℚ) :
    |compute_desired_rate_of_change 0 v stn 0 p dt| ≤ max (|v| - p.a_max * dt) 0 := by
  obtain ⟨hvm, ham, han, hnm, hdx⟩ := hp
  have hs : sign 0 = 0 := by norm_num [sign]
  have hb : brakingDistance v 0 0 p.a_max = 0 := by norm_num [brakingDistance]
  unfold compute_desired_rate_of_change
  rw [hs, hb]
  simp only [zero_mul, abs_zero]
  split_ifs with h1 h2
  · exact abs_moveToward_zero v _
  · exact le_trans (abs_clampMag_le_abs _ hvm.le) (abs_moveToward_zero v _)
  · exact absurd le_rfl h2

/-- Iterating the controller at `s_target = 0`, `speed_target_dest = 0` reaches
exactly 0 once `n·a_max·dt` covers the initial speed. -/
lemma compute_zero_iter (stn : ℚ) (p : MotionParams) (dt : ℚ)
    (hp : p.Valid) (hdt : 0 < dt) :
    ∀ n : ℕ, ∀ v : ℚ, |v| ≤ n * (p.a_max * dt) →
      (fun w => compute_desired_rate_of_change 0 w stn 0 p dt)^[n] v = 0 := by
  intro n
  induction n with
  | zero =>
    intro v hv
    rw [Nat.cast_zero, zero_mul] at hv
    rw [Function.iterate_zero_apply]
    exact abs_nonpos_iff.mp hv
  | succ n ih =>
    intro v hv
    rw [Function.iterate_succ_apply]
    apply ih
    have hc := compute_zero_contract stn p dt hp hdt v
    have hd : 0 ≤ p.a_max * dt := mul_nonneg hp.2.1.le hdt.le
    have hn : (0:ℚ) ≤ n * (p.a_max * dt) := by positivity
    have hcast : ((n + 1 : ℕ) : ℚ) = (n : ℚ) + 1 := by push_cast; ring
    rw [hcast] at hv
    have hmax : max (|v| - p.a_max * dt) 0 ≤ n * (p.a_max * dt) :=
      max_le (by linarith) hn
    exact le_trans hc hmax

/-! Claim theorems. -/

/-- C1 (counterexample): the velocity bound fails as the claim states it.
At `s_target = 1/200`, `v_actual = 1`, `speed_target_now = 1/5`,
`speed_target_dest = 1`, default `MotionParams`, `dt = 1/10` — a valid input per
the claim's own conditions — the deadband branch returns 1, above `v_max = 1/5`. -/
theorem C1_velocity_bound_counterexample :
    MotionParams.Valid {} ∧ (0:ℚ) < 1/10 ∧ (0:ℚ) ≤ 1/5 ∧ (0:ℚ) ≤ 1 ∧
    ({} : MotionParams).v_max <
      |compute_desired_rate_of_change (1/200) 1 (1/5) 1 {} (1/10)| := by
  norm_num [MotionParams.Valid, compute_desired_rate_of_change, brakingDistance,
    moveToward, clampMag, sign, abs, max_def, min_def]

/-- C1 (amended): for every valid input with, in addition, `|v_actual| ≤ v_max`
and `speed_target_dest ≤ v_max`, the velocity returned by
`compute_desired_rate_of_change` has magnitude at most `params.v_max`. -/
theorem C1_velocity_bound (s v stn std : ℚ) (p : MotionParams) (dt : ℚ)
    (hp : p.Valid) (hdt : 0 < dt) (hstn : 0 ≤ stn) (hstd : 0 ≤ std)
    (hv : |v| ≤ p.v_max) (hstd2 : std ≤ p.v_max) :
    |compute_desired_rate_of_change s v stn std p dt| ≤ p.v_max := by
  obtain ⟨hvm, ham, han, hnm, hdx⟩ := hp
  have htarget : |sign s * std| ≤ p.v_max := by
    rw [abs_mul, abs_of_nonneg hstd]
    have h01 := mul_le_mul_of_nonneg_right (abs_sign_le s) hstd
    rw [one_mul] at h01
    linarith
  unfold compute_desired_rate_of_change
  split_ifs with h1 h2
  · exact abs_moveToward_le (mul_nonneg ham.le hdt.le) hv htarget
  · exact abs_clampMag_le _ hvm.le
  · exact abs_clampMag_le _ hvm.le

/-- C1 (witness): the amended bound at a concrete valid input. -/
theorem C1_velocity_bound_witness :
    |compute_desired_rate_of_change 5 (1/10) (1/5) (1/10) {} (1/10)| ≤
      ({} : MotionParams).v_max :=
  C1_velocity_bound 5 (1/10) (1/5) (1/10) {} (1/10)
    (by norm_num [MotionParams.Valid]) (by norm_num) (by norm_num) (by norm_num)
    (by norm_num [abs, max_def]) (by norm_num)

/-- C2 (counterexample): the one-tick acceleration bound fails as the claim
states it. At `s_target = 5`, `v_actual = 1`, `speed_target_now = 1/5`,
`speed_target_dest = 0`, default `MotionParams`, `dt = 1/10` — a valid input per
the claim's conditions — the braking branch clips the result to `v_max = 1/5`,
a velocity change of `4/5`, far above `a_max·dt = 1/100`. -/
theorem C2_accel_bound_counterexample :
    MotionParams.Valid {} ∧ (0:ℚ) < 1/10 ∧ (0:ℚ) ≤ 1/5 ∧ (0:ℚ) ≤ 0 ∧
    ({} : MotionParams).a_max * (1/10) <
      |compute_desired_rate_of_change 5 1 (1/5) 0 {} (1/10) - 1| := by
  norm_num [MotionParams.Valid, compute_desired_rate_of_change, brakingDistance,
    moveToward, clampMag, sign, abs, max_def, min_def]

/-- C2 (amended): for every valid input with, in addition, `|v_actual| ≤ v_max`,
the change in velocity commanded in one call is bounded by the hard acceleration
limit times the timestep: `|result − v_actual| ≤ a_max · dt`. -/
theorem C2_accel_bound (s v stn std : ℚ) (p : MotionParams) (dt : ℚ)
    (hp : p.Valid) (hdt : 0 < dt) (hstn : 0 ≤ stn) (hstd : 0 ≤ std)
    (hv : |v| ≤ p.v_max) :
    |compute_desired_rate_of_change s v stn std p dt - v| ≤ p.a_max * dt := by
  obtain ⟨hvm, ham, han, hnm, hdx⟩ := hp
  have hamdt : 0 ≤ p.a_max * dt := mul_nonneg ham.le hdt.le
  have handt : 0 ≤ p.a_nom * dt := mul_nonneg han.le hdt.le
  unfold compute_desired_rate_of_change
  split_ifs with h1 h2
  · exact moveToward_sub_abs_le _ _ hamdt
  · exact le_trans (clampMag_sub_abs_le _ hv) (moveToward_sub_abs_le _ _ hamdt)
  · refine le_trans (clampMag_sub_abs_le _ hv)
      (le_trans (moveToward_sub_abs_le _ _ handt) ?_)
    exact mul_le_mul_of_nonneg_right hnm hdt.le

/-- C2 (witness): the amended bound at a concrete valid input. -/
theorem C2_accel_bound_witness :
    |compute_desired_rate_of_change 5 (1/10) (1/5) 0 {} (1/10) - 1/10| ≤
      ({} : MotionParams).a_max * (1/10) :=
  C2_accel_bound 5 (1/10) (1/5) 0 {} (1/10)
    (by norm_num [MotionParams.Valid]) (by norm_num) (by norm_num) (by norm_num)
    (by norm_num [abs, max_def])

/-- C3: with `s_target = 0` and `speed_target_dest = 0` the controller returns
exactly 0 at `v_actual = 0`, and from any `v_actual` (either sign) iterating the
controller reaches exactly 0 after finitely many ticks (no residual drift). -/
theorem C3_zero_convergence (stn : ℚ) (p : MotionParams) (dt : ℚ)
    (hp : p.Valid) (hdt : 0 < dt) :
    compute_desired_rate_of_change 0 0 stn 0 p dt = 0 ∧
    ∀ v : ℚ, ∃ n : ℕ,
      (fun w => compute_desired_rate_of_change 0 w stn 0 p dt)^[n] v = 0 := by
  have hpos : 0 < p.a_max * dt := mul_pos hp.2.1 hdt
  constructor
  · have hc := compute_zero_contract stn p dt hp hdt 0
    rw [abs_zero] at hc
    rw [max_eq_right (by linarith : 0 - p.a_max * dt ≤ 0)] at hc
    exact abs_nonpos_iff.mp hc
  · intro v
    refine ⟨⌈|v| / (p.a_max * dt)⌉₊, compute_zero_iter stn p dt hp hdt _ v ?_⟩
    exact (div_le_iff₀ hpos).mp (Nat.le_ceil _)

/-- C3 (witness): exact zero at the spec's concrete scenario
`step(s_target=0, v_actual=0, speed_target_now=0.2, speed_target_dest=0, dt=0.1)`. -/
theorem C3_zero_convergence_witness :
    compute_desired_rate_of_change 0 0 (1/5) 0 {} (1/10) = 0 :=
  (C3_zero_convergence (1/5) {} (1/10) (by norm_num [MotionParams.Valid])
    (by norm_num)).1

/-- C4 (code behavior at the failing input): calling the accessor of the variant
that was not constructed does not fail; it returns the defaulted other payload
(`""` for `get_name` on a handle-constructed entity, `0` for `get_entity` on a
name-constructed entity) while only writing a diagnostic to stderr. -/
theorem C4_wrong_variant_returns_default :
    (SimEntity.ofEntity 7).get_name = "" ∧
    (SimEntity.ofEntity 7).get_name_warns = true ∧
    (SimEntity.ofName "door").get_entity = 0 ∧
    (SimEntity.ofName "door").get_entity_warns = true :=
  ⟨rfl, by decide, rfl, by decide⟩

/-- C5 (code behavior at the failing input): `MotionParams` is a plain aggregate;
constructing it from entirely invalid values succeeds and stores them verbatim —
nothing is rejected at construction time — while the default-constructed value
does satisfy the invariant. -/
theorem C5_no_construction_rejection :
    (mkMotionParams (-1) (-1) (-1) (-1)).v_max = -1 ∧
    ¬ (mkMotionParams (-1) (-1) (-1) (-1)).Valid ∧
    MotionParams.Valid {} := by
  refine ⟨rfl, ?_, ?_⟩ <;> norm_num [MotionParams.Valid, mkMotionParams]

/-- C6: matching-variant accessor round-trip — constructing from any `uint64_t`
handle and reading `get_entity` yields the handle; constructing from any name
and reading `get_name` yields the name. -/
theorem C6_accessor_roundtrip :
    (∀ h : Nat, h < 2 ^ 64 → (SimEntity.ofEntity h).get_entity = h) ∧
    (∀ s : String, (SimEntity.ofName s).get_name = s) :=
  ⟨fun _ _ => rfl, fun _ => rfl⟩

/-- C6 (witness): the round-trip at a concrete handle and name. -/
theorem C6_accessor_roundtrip_witness :
    (SimEntity.ofEntity 42).get_entity = 42 ∧
    (SimEntity.ofName "lift").get_name = "lift" :=
  ⟨C6_accessor_roundtrip.1 42 (by norm_num), C6_accessor_roundtrip.2 "lift"⟩

/-- C7: determinism of `compute_desired_rate_of_change` — two calls whose six
arguments agree pairwise return identical results (the modelled controller keeps
no state between calls and leaves its `MotionParams` argument untouched). -/
theorem C7_deterministic (s₁ s₂ v₁ v₂ n₁ n₂ d₁ d₂ : ℚ) (p₁ p₂ : MotionParams)
    (t₁ t₂ : ℚ) (hs : s₁ = s₂) (hv : v₁ = v₂) (hn : n₁ = n₂) (hd : d₁ = d₂)
    (hp : p₁ = p₂) (ht : t₁ = t₂) :
    compute_desired_rate_of_change s₁ v₁ n₁ d₁ p₁ t₁ =
      compute_desired_rate_of_change s₂ v₂ n₂ d₂ p₂ t₂ := by
  rw [hs, hv, hn, hd, hp, ht]

/-- C7 (witness): determinism at a concrete repeated call. -/
theorem C7_deterministic_witness :
    compute_desired_rate_of_change 5 0 (1/5) 0 {} (1/10) =
      compute_desired_rate_of_change 5 0 (1/5) 0 {} (1/10) :=
  C7_deterministic 5 5 0 0 (1/5) (1/5) 0 0 {} {} (1/10) (1/10)
    rfl rfl rfl rfl rfl rfl

/-- C8: `make_response` copies the given status, request identifier and source
identifier into the message and stamps it with the simulation-domain timestamp
of the given simulated time. -/
theorem C8_make_response_fields (status : Nat) (t : ℚ) (rg g : String)
    (hstatus : status < 256) :
    (make_response status t rg g).status = status ∧
    (make_response status t rg g).request_guid = rg ∧
    (make_response status t rg g).source_guid = g ∧
    (make_response status t rg g).time = simulation_now t :=
  ⟨rfl, rfl, rfl, rfl⟩

/-- C8 (witness): the field contract at a concrete message. -/
theorem C8_make_response_fields_witness :
    (make_response 3 (5/2) "req-1" "src-1").status = 3 ∧
    (make_response 3 (5/2) "req-1" "src-1").request_guid = "req-1" ∧
    (make_response 3 (5/2) "req-1" "src-1").source_guid = "src-1" ∧
    (make_response 3 (5/2) "req-1" "src-1").time = simulation_now (5/2) :=
  C8_make_response_fields 3 (5/2) "req-1" "src-1" (by norm_num)

/-- C9: pose round-trip — for every rigid transform (translation plus normalized
rotation quaternion), `convert_pose (convert_to_pose tf) = tf`, and likewise the
component-wise conversions round-trip exactly (`convert_vec` after the vector
`convert`, and `convert_quat` after the quaternion `convert`); in the exact
rational embedding the round-trip is lossless. -/
theorem C9_pose_roundtrip :
    (∀ tf : Isometry3d, tf.rot.normSq = 1 →
      convert_pose (convert_to_pose tf) = tf) ∧
    (∀ v : Vec3, convert_vec (convert_ign_vec v) = v) ∧
    (∀ q : Quat, convert_quat (convert_ign_quat q) = q) :=
  ⟨fun _ _ => rfl, fun _ => rfl, fun _ => rfl⟩

/-- C9 (witness): the pose round-trip at a concrete transform with a unit
quaternion. -/
theorem C9_pose_roundtrip_witness :
    convert_pose (convert_to_pose ⟨⟨1, 2, 3⟩, ⟨1, 0, 0, 0⟩⟩) =
      (⟨⟨1, 2, 3⟩, ⟨1, 0, 0, 0⟩⟩ : Isometry3d) :=
  C9_pose_roundtrip.1 ⟨⟨1, 2, 3⟩, ⟨1, 0, 0, 0⟩⟩ (by norm_num [Quat.normSq])

/-- C10: both `SimEntity` constructors initialize both payload fields, so the
accessors are total and never read uninitialized data: `get_name` on a
handle-constructed entity is always `""`, and `get_entity` on a
name-constructed entity is always `0`. -/
theorem C10_both_payloads_initialized :
    (∀ h : Nat, (SimEntity.ofEntity h).name = "" ∧
      (SimEntity.ofEntity h).get_name = "") ∧
    (∀ s : String, (SimEntity.ofName s).entity = 0 ∧
      (SimEntity.ofName s).get_entity = 0) :=
  ⟨fun _ => ⟨rfl, rfl⟩, fun _ => ⟨rfl, rfl⟩⟩

end rmf_plugins_utils

section spec_scenarios
open rmf_plugins_utils

/-! Sanity checks: the modelled controller reproduces the concrete scenarios of
spec §8 property 7 (with `v_max=0.2, a_max=0.1, a_nom=0.08, dx_min=0.01`):
acceleration from rest toward a far goal commands `a_nom·dt = 0.008`; the
deadband at `s_target = 0.005` ramps `0.15` down by `a_max·dt = 0.01`; the
zero-displacement stop is exact. -/

example : compute_desired_rate_of_change 5 0 (1/5) 0 {} (1/10) = 1/125 := by
  norm_num [compute_desired_rate_of_change, brakingDistance, moveToward, clampMag, sign,
    abs, max_def, min_def]

example : compute_desired_rate_of_change (1/200) (3/20) (1/5) 0 {} (1/10) = 7/50 := by
  norm_num [compute_desired_rate_of_change, brakingDistance, moveToward, clampMag, sign,
    abs, max_def, min_def]

example : compute_desired_rate_of_change 0 0 (1/5) 0 {} (1/10) = 0 := by
  norm_num [compute_desired_rate_of_change, brakingDistance, moveToward, clampMag, sign,
    abs, max_def, min_def]

end spec_scenarios
